import Mathlib

/-!
Shallow embedding of the geographic point-classification and geocoding core of
the earthquake-detection repository, covering
`src/backup/add_country_advanced.py` (class `CountryDetector`) and
`src/backup/comprehensive_country_detector.py` (class
`ComprehensiveCountryDetector`).

Coordinates are modelled as rationals (the scripts compare Python floats with
`<=` only; every comparison appearing in the claims is exact at the inputs
involved).  Values read from the CSV may be NaN/missing or non-numeric, which
is modelled by `PyVal`.  The reverse-geocoding backend (geopy `Nominatim`) is
modelled as a function from the index of the outbound call to an outcome; the
retry loop, the cache and the sleeps are embedded as a pure state machine that
also records a trace of events (rate-limit sleeps, outbound invocations,
backoff sleeps).
-/

namespace EqDetect

/-- A scalar read from a pandas cell: NaN/missing (`pd.isna` true), a numeric
value, or a non-numeric value on which `float()` raises. -/
inductive PyVal where
  | na : PyVal
  | num : ℚ → PyVal
  | bad : PyVal
deriving DecidableEq

/-- The `pd.isna` test followed by `float()` conversion performed at the top of
both `get_country_from_coordinates` methods: `none` when the guard returns
`'Unknown'`. -/
def toNum : PyVal → Option ℚ
  | .na => none
  | .num q => some q
  | .bad => none

/-! ## `add_country_advanced.py` — `CountryDetector` geographical rules -/

namespace CountryDetector

/-- One country rule of `get_country_from_geography`: a boolean bounding-box
test (possibly a union of boxes) and the returned label. -/
structure Rule where
  test : ℚ → ℚ → Bool
  label : String

/-- The country rules of `get_country_from_geography` (lines 129-220), in the
declaration order of the source's `if ...: return` chain. -/
def countryRules : List Rule :=
  [ ⟨fun lat lon => decide ((25 ≤ lat ∧ lat ≤ 49 ∧ -125 ≤ lon ∧ lon ≤ -66) ∨
      (55 ≤ lat ∧ lat ≤ 72 ∧ -168 ≤ lon ∧ lon ≤ -141) ∨
      (18 ≤ lat ∧ lat ≤ 23 ∧ -162 ≤ lon ∧ lon ≤ -154)), "United States"⟩,
    ⟨fun lat lon => decide (42 ≤ lat ∧ lat ≤ 84 ∧ -141 ≤ lon ∧ lon ≤ -52), "Canada"⟩,
    ⟨fun lat lon => decide (14 ≤ lat ∧ lat ≤ 33 ∧ -118 ≤ lon ∧ lon ≤ -86), "Mexico"⟩,
    ⟨fun lat lon => decide (24 ≤ lat ∧ lat ≤ 46 ∧ 122 ≤ lon ∧ lon ≤ 146), "Japan"⟩,
    ⟨fun lat lon => decide (-11 ≤ lat ∧ lat ≤ 6 ∧ 95 ≤ lon ∧ lon ≤ 141), "Indonesia"⟩,
    ⟨fun lat lon => decide (5 ≤ lat ∧ lat ≤ 21 ∧ 116 ≤ lon ∧ lon ≤ 127), "Philippines"⟩,
    ⟨fun lat lon => decide (-56 ≤ lat ∧ lat ≤ -17 ∧ -76 ≤ lon ∧ lon ≤ -66), "Chile"⟩,
    ⟨fun lat lon => decide (-47 ≤ lat ∧ lat ≤ -34 ∧ 166 ≤ lon ∧ lon ≤ 179), "New Zealand"⟩,
    ⟨fun lat lon => decide (36 ≤ lat ∧ lat ≤ 42 ∧ 26 ≤ lon ∧ lon ≤ 45), "Turkey"⟩,
    ⟨fun lat lon => decide (36 ≤ lat ∧ lat ≤ 47 ∧ 6 ≤ lon ∧ lon ≤ 19), "Italy"⟩,
    ⟨fun lat lon => decide (34 ≤ lat ∧ lat ≤ 42 ∧ 19 ≤ lon ∧ lon ≤ 30), "Greece"⟩,
    ⟨fun lat lon => decide (25 ≤ lat ∧ lat ≤ 40 ∧ 44 ≤ lon ∧ lon ≤ 64), "Iran"⟩,
    ⟨fun lat lon => decide (18 ≤ lat ∧ lat ≤ 54 ∧ 73 ≤ lon ∧ lon ≤ 135), "China"⟩,
    ⟨fun lat lon => decide (41 ≤ lat ∧ lat ≤ 82 ∧ 19 ≤ lon ∧ lon ≤ 180), "Russia"⟩,
    ⟨fun lat lon => decide (6 ≤ lat ∧ lat ≤ 38 ∧ 68 ≤ lon ∧ lon ≤ 98), "India"⟩,
    ⟨fun lat lon => decide (-44 ≤ lat ∧ lat ≤ -10 ∧ 112 ≤ lon ∧ lon ≤ 154), "Australia"⟩,
    ⟨fun lat lon => decide (-12 ≤ lat ∧ lat ≤ -1 ∧ 140 ≤ lon ∧ lon ≤ 160), "Papua New Guinea"⟩,
    ⟨fun lat lon => decide (-19 ≤ lat ∧ lat ≤ 0 ∧ -82 ≤ lon ∧ lon ≤ -68), "Peru"⟩,
    ⟨fun lat lon => decide (-5 ≤ lat ∧ lat ≤ 2 ∧ -82 ≤ lon ∧ lon ≤ -75), "Ecuador"⟩,
    ⟨fun lat lon => decide (-5 ≤ lat ∧ lat ≤ 13 ∧ -80 ≤ lon ∧ lon ≤ -66), "Colombia"⟩,
    ⟨fun lat lon => decide (0 ≤ lat ∧ lat ≤ 13 ∧ -74 ≤ lon ∧ lon ≤ -59), "Venezuela"⟩,
    ⟨fun lat lon => decide (-34 ≤ lat ∧ lat ≤ 6 ∧ -75 ≤ lon ∧ lon ≤ -30), "Brazil"⟩,
    ⟨fun lat lon => decide (-55 ≤ lat ∧ lat ≤ -21 ∧ -74 ≤ lon ∧ lon ≤ -53), "Argentina"⟩ ]

/-- First-match evaluation of an `if ...: return label` chain over a rule
list: the semantics of the chain of early returns in
`get_country_from_geography`. -/
def firstMatch (lat lon : ℚ) : List Rule → Option String
  | [] => none
  | r :: rs => if r.test lat lon then some r.label else firstMatch lat lon rs

/-- `is_major_sea_or_lake` (lines 258-278). -/
def is_major_sea_or_lake (lat lon : ℚ) : Bool :=
  decide ((30 ≤ lat ∧ lat ≤ 46 ∧ -6 ≤ lon ∧ lon ≤ 37) ∨
    (40 ≤ lat ∧ lat ≤ 48 ∧ 27 ≤ lon ∧ lon ≤ 42) ∨
    (36 ≤ lat ∧ lat ≤ 47 ∧ 46 ≤ lon ∧ lon ≤ 55) ∨
    (41 ≤ lat ∧ lat ≤ 49 ∧ -93 ≤ lon ∧ lon ≤ -76))

/-- The `land_regions` table of `is_in_ocean` (lines 234-247), as
`(lat_min, lat_max, lon_min, lon_max)` tuples. -/
def landRegions : List (ℚ × ℚ × ℚ × ℚ) :=
  [ (10, 85, -170, -50),
    (-60, 15, -85, -30),
    (35, 75, -15, 45),
    (-15, 80, 25, 180),
    (-40, 40, -20, 55),
    (-50, -10, 110, 180) ]

/-- `is_in_ocean` (lines 229-256): inside some land region the point is ocean
exactly when it lies in a major enclosed sea or lake; outside all land regions
it is ocean. -/
def is_in_ocean (lat lon : ℚ) : Bool :=
  match landRegions.find? (fun b =>
      decide (b.1 ≤ lat ∧ lat ≤ b.2.1 ∧ b.2.2.1 ≤ lon ∧ lon ≤ b.2.2.2)) with
  | some _ => is_major_sea_or_lake lat lon
  | none => true

/-- `get_specific_ocean_region` (lines 280-330). -/
def get_specific_ocean_region (lat lon : ℚ) : String :=
  if 30 ≤ lat ∧ lat ≤ 46 ∧ -6 ≤ lon ∧ lon ≤ 37 then "Mediterranean Sea"
  else if 40 ≤ lat ∧ lat ≤ 48 ∧ 27 ≤ lon ∧ lon ≤ 42 then "Black Sea"
  else if 36 ≤ lat ∧ lat ≤ 47 ∧ 46 ≤ lon ∧ lon ≤ 55 then "Caspian Sea"
  else if (120 ≤ lon ∧ lon ≤ 180) ∨ (-180 ≤ lon ∧ lon ≤ -100) then
    if 40 ≤ lat then "North Pacific Ocean"
    else if lat ≤ -40 then "South Pacific Ocean"
    else if -10 ≤ lat ∧ lat ≤ 10 then "Equatorial Pacific Ocean"
    else "Pacific Ocean"
  else if -80 ≤ lon ∧ lon ≤ 20 then
    if 40 ≤ lat then "North Atlantic Ocean"
    else if lat ≤ -40 then "South Atlantic Ocean"
    else if -10 ≤ lat ∧ lat ≤ 10 then "Equatorial Atlantic Ocean"
    else "Atlantic Ocean"
  else if 20 ≤ lon ∧ lon ≤ 120 ∧ -50 ≤ lat ∧ lat ≤ 30 then "Indian Ocean"
  else if 70 ≤ lat then "Arctic Ocean"
  else if lat ≤ -50 then "Southern Ocean"
  else "Ocean"

/-- `get_regional_fallback` (lines 332-394). -/
def get_regional_fallback (lat lon : ℚ) : String :=
  if 10 ≤ lat ∧ lat ≤ 25 ∧ -85 ≤ lon ∧ lon ≤ -60 then "Caribbean Region"
  else if 7 ≤ lat ∧ lat ≤ 18 ∧ -92 ≤ lon ∧ lon ≤ -77 then "Central America"
  else if 12 ≤ lat ∧ lat ≤ 42 ∧ 25 ≤ lon ∧ lon ≤ 65 then "Middle East"
  else if -15 ≤ lat ∧ lat ≤ 25 ∧ 90 ≤ lon ∧ lon ≤ 145 then "Southeast Asia"
  else if 55 ≤ lat ∧ lat ≤ 75 ∧ -15 ≤ lon ∧ lon ≤ 45 then "Northern Europe"
  else if 45 ≤ lat ∧ lat ≤ 70 ∧ 15 ≤ lon ∧ lon ≤ 50 then "Eastern Europe"
  else if 40 ≤ lat ∧ lat ≤ 60 ∧ -15 ≤ lon ∧ lon ≤ 20 then "Western Europe"
  else if 15 ≤ lat ∧ lat ≤ 40 ∧ -20 ≤ lon ∧ lon ≤ 40 then "North Africa"
  else if -15 ≤ lat ∧ lat ≤ 20 ∧ 25 ≤ lon ∧ lon ≤ 55 then "East Africa"
  else if 0 ≤ lat ∧ lat ≤ 25 ∧ -25 ≤ lon ∧ lon ≤ 20 then "West Africa"
  else if -40 ≤ lat ∧ lat ≤ -15 ∧ 10 ≤ lon ∧ lon ≤ 40 then "Southern Africa"
  else if 35 ≤ lat ∧ lat ≤ 55 ∧ 45 ≤ lon ∧ lon ≤ 85 then "Central Asia"
  else if lat ≤ -60 then "Antarctica"
  else if 75 ≤ lat then "Arctic Region"
  else "Unknown Region"

/-- `get_country_from_geography` (lines 120-227): the country rule chain,
then the ocean stage, then the regional fallback. -/
def get_country_from_geography (lat lon : ℚ) : String :=
  match firstMatch lat lon countryRules with
  | some c => c
  | none =>
    if is_in_ocean lat lon then get_specific_ocean_region lat lon
    else get_regional_fallback lat lon

end CountryDetector

/-! ## `comprehensive_country_detector.py` — `ComprehensiveCountryDetector`
geographical rules -/

namespace Comprehensive

/-- `get_high_confidence_country` (lines 103-152) without its ocean stage:
the chain of high-confidence country boxes.  Split out so the full method
below mirrors the source's `if ...: return` order exactly. -/
def high_confidence_country_boxes (lat lon : ℚ) : Option String :=
  if (25 ≤ lat ∧ lat ≤ 49 ∧ -125 ≤ lon ∧ lon ≤ -66) ∨
     (55 ≤ lat ∧ lat ≤ 72 ∧ -168 ≤ lon ∧ lon ≤ -141) ∨
     (18 ≤ lat ∧ lat ≤ 23 ∧ -162 ≤ lon ∧ lon ≤ -154) then some "United States"
  else if 50 ≤ lat ∧ lat ≤ 84 ∧ -141 ≤ lon ∧ lon ≤ -52 then some "Canada"
  else if 50 ≤ lat ∧ lat ≤ 82 ∧ 30 ≤ lon ∧ lon ≤ 180 then some "Russia"
  else if 50 ≤ lat ∧ lat ≤ 82 ∧ -180 ≤ lon ∧ lon ≤ -169 then some "Russia"
  else if 20 ≤ lat ∧ lat ≤ 50 ∧ 80 ≤ lon ∧ lon ≤ 130 then some "China"
  else if -44 ≤ lat ∧ lat ≤ -10 ∧ 112 ≤ lon ∧ lon ≤ 154 then some "Australia"
  else if 24 ≤ lat ∧ lat ≤ 46 ∧ 129 ≤ lon ∧ lon ≤ 146 then some "Japan"
  else if -8 ≤ lat ∧ lat ≤ 6 ∧ 95 ≤ lon ∧ lon ≤ 141 then some "Indonesia"
  else if -34 ≤ lat ∧ lat ≤ 6 ∧ -75 ≤ lon ∧ lon ≤ -34 then some "Brazil"
  else none

/-- `is_definitely_ocean` (lines 154-178).  Note the source's Central Pacific
test is `140 <= lon <= -120`. -/
def is_definitely_ocean (lat lon : ℚ) : Bool :=
  if -40 ≤ lat ∧ lat ≤ 40 ∧ 140 ≤ lon ∧ lon ≤ -120 then true
  else if -40 ≤ lat ∧ lat ≤ 40 ∧ -50 ≤ lon ∧ lon ≤ -10 then true
  else if -40 ≤ lat ∧ lat ≤ 20 ∧ 60 ≤ lon ∧ lon ≤ 100 then true
  else if lat ≤ -50 then true
  else if 75 ≤ lat then true
  else false

/-- `get_ocean_name` (lines 180-201). -/
def get_ocean_name (lat lon : ℚ) : String :=
  if lat ≤ -50 then "Southern Ocean"
  else if 75 ≤ lat then "Arctic Ocean"
  else if 60 ≤ lon ∧ lon ≤ 100 ∧ lat ≤ 20 then "Indian Ocean"
  else if -50 ≤ lon ∧ lon ≤ -10 then
    if 0 ≤ lat then "North Atlantic Ocean" else "South Atlantic Ocean"
  else if (140 ≤ lon ∧ lon ≤ 180) ∨ (-180 ≤ lon ∧ lon ≤ -120) then
    if 0 ≤ lat then "North Pacific Ocean" else "South Pacific Ocean"
  else "Ocean"

/-- `get_high_confidence_country` (lines 103-152): country boxes, then the
high-confidence ocean stage, else the sentinel `'Uncertain'`. -/
def get_high_confidence_country (lat lon : ℚ) : String :=
  match high_confidence_country_boxes lat lon with
  | some c => c
  | none =>
    if is_definitely_ocean lat lon then get_ocean_name lat lon
    else "Uncertain"

/-- `get_regional_classification` (lines 312-363). -/
def get_regional_classification (lat lon : ℚ) : String :=
  if 10 ≤ lat ∧ lat ≤ 25 ∧ -85 ≤ lon ∧ lon ≤ -60 then "Caribbean Region"
  else if 7 ≤ lat ∧ lat ≤ 18 ∧ -92 ≤ lon ∧ lon ≤ -77 then "Central America"
  else if 12 ≤ lat ∧ lat ≤ 42 ∧ 25 ≤ lon ∧ lon ≤ 65 then "Middle East"
  else if -15 ≤ lat ∧ lat ≤ 25 ∧ 90 ≤ lon ∧ lon ≤ 145 then "Southeast Asia"
  else if 35 ≤ lat ∧ lat ≤ 75 ∧ -15 ≤ lon ∧ lon ≤ 45 then
    if 55 ≤ lat then "Northern Europe"
    else if 45 ≤ lat ∧ lat ≤ 55 then "Central Europe"
    else "Southern Europe"
  else if -40 ≤ lat ∧ lat ≤ 40 ∧ -20 ≤ lon ∧ lon ≤ 55 then
    if 20 ≤ lat then "Northern Africa"
    else if 0 ≤ lat then "Central Africa"
    else "Southern Africa"
  else if lat ≤ -60 then "Antarctica"
  else if 70 ≤ lat then "Arctic Region"
  else if 90 < |lon| ∨ 60 < |lat| then get_ocean_name lat lon
  else "Unknown Region"

/-- `get_detailed_geographical_country` (lines 254-310). -/
def get_detailed_geographical_country (lat lon : ℚ) : String :=
  if 14 ≤ lat ∧ lat ≤ 33 ∧ -118 ≤ lon ∧ lon ≤ -86 then "Mexico"
  else if 5 ≤ lat ∧ lat ≤ 21 ∧ 116 ≤ lon ∧ lon ≤ 127 then "Philippines"
  else if -56 ≤ lat ∧ lat ≤ -17 ∧ -76 ≤ lon ∧ lon ≤ -66 then "Chile"
  else if -19 ≤ lat ∧ lat ≤ 0 ∧ -82 ≤ lon ∧ lon ≤ -68 then "Peru"
  else if -55 ≤ lat ∧ lat ≤ -21 ∧ -74 ≤ lon ∧ lon ≤ -53 then "Argentina"
  else if 36 ≤ lat ∧ lat ≤ 42 ∧ 26 ≤ lon ∧ lon ≤ 45 then "Turkey"
  else if 25 ≤ lat ∧ lat ≤ 40 ∧ 44 ≤ lon ∧ lon ≤ 64 then "Iran"
  else if 6 ≤ lat ∧ lat ≤ 38 ∧ 68 ≤ lon ∧ lon ≤ 98 then "India"
  else if -47 ≤ lat ∧ lat ≤ -34 ∧ 166 ≤ lon ∧ lon ≤ 179 then "New Zealand"
  else if -12 ≤ lat ∧ lat ≤ -1 ∧ 140 ≤ lon ∧ lon ≤ 160 then "Papua New Guinea"
  else if 36 ≤ lat ∧ lat ≤ 47 ∧ 6 ≤ lon ∧ lon ≤ 19 then "Italy"
  else if 34 ≤ lat ∧ lat ≤ 42 ∧ 19 ≤ lon ∧ lon ≤ 30 then "Greece"
  else get_regional_classification lat lon

end Comprehensive

/-! ## Geocoding backend, cache and retry loop

Both classes wrap `geolocator.reverse` in the same retry/cache scheme
(`CountryDetector.get_country_with_geocoding`, lines 51-96, with
`max_retries=3`, key precision 3 and a 0.2s courtesy sleep;
`ComprehensiveCountryDetector.get_country_with_geocoding`, lines 203-241,
with `max_retries=2`, key precision 2 and a 0.3s courtesy sleep).  The
backend is a function from the index of the outbound call to an outcome. -/

/-- Outcome of one `geolocator.reverse` call.  `found c` is a response whose
address block yields the country string `c` through the
`country`/`country_name`/`country_code` chain (the empty string models a
falsy extraction, on which the code breaks out of the loop); `noCountry` is a
missing/empty location or address; `transient` is a raised
`GeocoderTimedOut` or `GeocoderServiceError`; `exc` is any other raised
exception. -/
inductive GeoOutcome where
  | found : String → GeoOutcome
  | noCountry : GeoOutcome
  | transient : GeoOutcome
  | exc : GeoOutcome
deriving DecidableEq

/-- Observable events of the retry loop: the fixed courtesy `time.sleep`
before each request (duration in seconds), an outbound `geolocator.reverse`
call (carrying its global call index), and the `time.sleep(2 ** attempt)`
backoff after a transient failure (duration in seconds). -/
inductive Ev where
  | rate : ℚ → Ev
  | invoke : ℕ → Ev
  | backoff : ℕ → Ev
deriving DecidableEq

/-- The geocoding cache `self.geocoding_cache`: rounded key to either a
country (`some c`) or the cached negative result `None` (`none`).  Python
dict lookup is modelled by the first matching entry. -/
abbrev Cache := List ((ℤ × ℤ) × Option String)

/-- Lookup in the cache (Python `cache_key in self.geocoding_cache` plus
`self.geocoding_cache[cache_key]`). -/
def cLookup (k : ℤ × ℤ) : Cache → Option (Option String)
  | [] => none
  | (k', v) :: rest => if k' = k then some v else cLookup k rest

/-- Rounding of one coordinate to `p` decimal digits, as an integer number of
`10 ^ -p` units: models the `f"{x:.3f}"` / `f"{x:.2f}"` key formatting.
Written with integer floor division so it evaluates in the kernel. -/
def roundKey (p : ℕ) (q : ℚ) : ℤ :=
  Int.fdiv (2 * q.num * (10 : ℤ) ^ p + (q.den : ℤ)) (2 * (q.den : ℤ))

/-- The cache key `f"{lat:.pf},{lon:.pf}"`. -/
def cacheKey (p : ℕ) (lat lon : ℚ) : ℤ × ℤ :=
  (roundKey p lat, roundKey p lon)

/-- The `for attempt in range(max_retries)` loop body shared by both
`get_country_with_geocoding` methods, recursing on the number of remaining
attempts.  `attempt` is the current loop counter (for the backoff exponent),
`i` the index of the next outbound call; `stdize` is the pycountry
standardisation applied inside the loop by `CountryDetector` (the identity
for `ComprehensiveCountryDetector`, which standardises at the call site).
Returns the country returned from inside the loop (if any), the next call
index, and the event trace. -/
def geocodeAttempts (net : ℕ → GeoOutcome) (stdize : String → String) (rateD : ℚ) :
    ℕ → ℕ → ℕ → Option String × ℕ × List Ev
  | 0, _, i => (none, i, [])
  | remaining + 1, attempt, i =>
    match net i with
    | .found c =>
      if c = "" then (none, i + 1, [.rate rateD, .invoke i])
      else (some (stdize c), i + 1, [.rate rateD, .invoke i])
    | .noCountry => (none, i + 1, [.rate rateD, .invoke i])
    | .transient =>
      if 1 ≤ remaining then
        let r := geocodeAttempts net stdize rateD remaining (attempt + 1) (i + 1)
        (r.1, r.2.1, .rate rateD :: .invoke i :: .backoff (2 ^ attempt) :: r.2.2)
      else (none, i + 1, [.rate rateD, .invoke i])
    | .exc => (none, i + 1, [.rate rateD, .invoke i])

/-- The shared shape of `get_country_with_geocoding`: check the cache (a hit,
positive or negative, returns without touching the network), else run the
retry loop and cache the country or the failure. -/
def gcwg (prec maxRetries : ℕ) (rateD : ℚ) (net : ℕ → GeoOutcome)
    (stdize : String → String) (cache : Cache) (idx : ℕ) (lat lon : ℚ) :
    Option String × Cache × ℕ × List Ev :=
  let key := cacheKey prec lat lon
  match cLookup key cache with
  | some v => (v, cache, idx, [])
  | none =>
    let r := geocodeAttempts net stdize rateD maxRetries 0 idx
    match r.1 with
    | some c => (some c, (key, some c) :: cache, r.2.1, r.2.2)
    | none => (none, (key, none) :: cache, r.2.1, r.2.2)

namespace CountryDetector

/-- `CountryDetector.get_country_with_geocoding` (lines 51-96):
3-decimal cache key, `max_retries=3`, 0.2s courtesy sleep, pycountry
standardisation applied before caching. -/
def get_country_with_geocoding (net : ℕ → GeoOutcome) (stdize : String → String)
    (cache : Cache) (idx : ℕ) (lat lon : ℚ) : Option String × Cache × ℕ × List Ev :=
  gcwg 3 3 (1 / 5) net stdize cache idx lat lon

/-- `CountryDetector.get_country_from_coordinates` (lines 98-118): NaN and
conversion guards, then geocoding when enabled (its truthy result is
returned), else the geographical rules. -/
def get_country_from_coordinates (net : ℕ → GeoOutcome) (stdize : String → String)
    (cache : Cache) (idx : ℕ) (useGeo : Bool) (lat lon : PyVal) :
    String × Cache × ℕ × List Ev :=
  match toNum lat, toNum lon with
  | some la, some lo =>
    if useGeo then
      match get_country_with_geocoding net stdize cache idx la lo with
      | (some c, cache', i', evs) => (c, cache', i', evs)
      | (none, cache', i', evs) => (get_country_from_geography la lo, cache', i', evs)
    else (get_country_from_geography la lo, cache, idx, [])
  | _, _ => ("Unknown", cache, idx, [])

end CountryDetector

namespace Comprehensive

/-- `ComprehensiveCountryDetector.get_country_with_geocoding` (lines
203-241): 2-decimal cache key, `max_retries=2`, 0.3s courtesy sleep, raw
country cached (standardisation happens at the call site).  `save_cache`
only writes the cache to disk and is not modelled. -/
def get_country_with_geocoding (net : ℕ → GeoOutcome) (cache : Cache) (idx : ℕ)
    (lat lon : ℚ) : Option String × Cache × ℕ × List Ev :=
  gcwg 2 2 (3 / 10) net (fun s => s) cache idx lat lon

/-- `ComprehensiveCountryDetector.get_country_from_coordinates` (lines
75-101): NaN and conversion guards, the high-confidence rules (returning
immediately unless `'Uncertain'`), then geocoding when enabled (its truthy
result is standardised via `standardize_country_name`, modelled by `std`),
else the detailed geographical analysis. -/
def get_country_from_coordinates (net : ℕ → GeoOutcome) (std : String → String)
    (cache : Cache) (idx : ℕ) (useGeo : Bool) (lat lon : PyVal) :
    String × Cache × ℕ × List Ev :=
  match toNum lat, toNum lon with
  | some la, some lo =>
    let hc := get_high_confidence_country la lo
    if hc = "Uncertain" then
      if useGeo then
        match get_country_with_geocoding net cache idx la lo with
        | (some c, cache', i', evs) => (std c, cache', i', evs)
        | (none, cache', i', evs) => (get_detailed_geographical_country la lo, cache', i', evs)
      else (get_detailed_geographical_country la lo, cache, idx, [])
    else (hc, cache, idx, [])
  | _, _ => ("Unknown", cache, idx, [])

end Comprehensive

/-! ## Invocation counting and lookup sequences (for the cache invariant) -/

/-- Number of outbound `geolocator.reverse` calls in a trace. -/
def countInvokes (evs : List Ev) : ℕ :=
  evs.countP (fun e => match e with | .invoke _ => true | _ => false)

/-- The backoff sleep durations of a trace, in order. -/
def backoffs (evs : List Ev) : List ℕ :=
  evs.filterMap (fun e => match e with | .backoff s => some s | _ => none)

/-- A sequence of `get_country_with_geocoding` calls through one detector
sharing one cache (one run), returning the final cache and call index plus
the per-call traces. -/
def runLookups (prec maxRetries : ℕ) (rateD : ℚ) (net : ℕ → GeoOutcome)
    (stdize : String → String) :
    Cache → ℕ → List (ℚ × ℚ) → Cache × ℕ × List (List Ev)
  | cache, idx, [] => (cache, idx, [])
  | cache, idx, (la, lo) :: rest =>
    let r := gcwg prec maxRetries rateD net stdize cache idx la lo
    let rr := runLookups prec maxRetries rateD net stdize r.2.1 r.2.2.1 rest
    (rr.1, rr.2.1, r.2.2.2 :: rr.2.2)

/-- Total number of outbound calls attributable to the rounded key `k` in a
run: the sum, over the calls whose coordinates round to `k`, of the outbound
calls in that call's trace. -/
def keyInvokes (prec : ℕ) (k : ℤ × ℤ) : List (ℚ × ℚ) → List (List Ev) → ℕ
  | (la, lo) :: rest, evs :: tr =>
    (if cacheKey prec la lo = k then countInvokes evs else 0) + keyInvokes prec k rest tr
  | _, _ => 0

/-! ## Batch enrichment (`process_earthquake_database`, lines 427-445, and
`analyze_and_update_database`, lines 414-441) with geocoding disabled -/

/-- One row of the earthquake table: the `Latitude`/`Longitude` cells and the
`Country` cell (`none` models a NaN / missing value). -/
structure Row where
  lat : PyVal
  lon : PyVal
  country : Option String
deriving DecidableEq

namespace CountryDetector

/-- `get_country_from_coordinates` with `use_geocoding=False` is a pure
function of the row's coordinates; this is that pure path (the guards of
lines 102-109 followed by `get_country_from_geography`). -/
def detectOffline (lat lon : PyVal) : String :=
  match toNum lat, toNum lon with
  | some la, some lo => get_country_from_geography la lo
  | _, _ => "Unknown"

/-- The row-selection mask of `process_earthquake_database` (line 429):
`df['Country'].isna() | (df['Country'] == 'Unknown')`. -/
def needsCountry (c : Option String) : Bool :=
  c.isNone || c = some "Unknown"

/-- The per-row update of the processing loop (lines 440-445), geocoding
disabled: selected rows get `detectOffline`, other rows are untouched. -/
def enrichRow (r : Row) : Row :=
  if needsCountry r.country then { r with country := some (detectOffline r.lat r.lon) }
  else r

/-- One full run of `process_earthquake_database` with geocoding disabled, on
a table that already has a `Country` column. -/
def enrich (df : List Row) : List Row :=
  df.map enrichRow

end CountryDetector

namespace Comprehensive

/-- `get_country_from_coordinates` with `use_geocoding=False` as a pure
function: the guards, the high-confidence rules, then the detailed
geographical analysis. -/
def detectOffline (lat lon : PyVal) : String :=
  match toNum lat, toNum lon with
  | some la, some lo =>
    let hc := get_high_confidence_country la lo
    if hc = "Uncertain" then get_detailed_geographical_country la lo else hc
  | _, _ => "Unknown"

/-- The row-selection mask of `analyze_and_update_database` (line 416):
missing, `'Unknown'` or `'Unknown Region'`. -/
def needsCountry (c : Option String) : Bool :=
  c.isNone || c = some "Unknown" || c = some "Unknown Region"

/-- The per-row update of the processing loop (lines 435-440), geocoding
disabled. -/
def enrichRow (r : Row) : Row :=
  if needsCountry r.country then { r with country := some (detectOffline r.lat r.lon) }
  else r

/-- One full run of `analyze_and_update_database` with geocoding disabled
(and `force_update=False`), on a table that already has a `Country`
column. -/
def enrich (df : List Row) : List Row :=
  df.map enrichRow

end Comprehensive

/-! ## Concrete backend behaviours used to instantiate the theorems -/

/-- A backend that raises a transient error on its first two calls and then
returns a response with country `'Chile'`. -/
def netFailTwice : ℕ → GeoOutcome :=
  fun k => if k < 2 then .transient else .found "Chile"

/-- A backend whose every call raises a non-transient exception. -/
def netAlwaysExc : ℕ → GeoOutcome :=
  fun _ => .exc

/-! ## Helper lemmas about the retry loop and the cache -/

/-- With at least one attempt allowed, the retry loop always makes at least
one outbound call. -/
theorem geocodeAttempts_invokes_pos (net : ℕ → GeoOutcome) (std : String → String) (d : ℚ) :
    ∀ (r a i : ℕ), 1 ≤ r → 1 ≤ countInvokes (geocodeAttempts net std d r a i).2.2
  | 0, _, _, h => absurd h (by omega)
  | r + 1, _, i, _ => by
    unfold geocodeAttempts
    cases hn : net i with
    | found c => by_cases hc : c = "" <;> simp [hc, countInvokes]
    | noCountry => simp [countInvokes]
    | transient =>
      by_cases h1 : 1 ≤ r <;> simp [h1, countInvokes]
    | exc => simp [countInvokes]

/-- The retry loop makes at most as many outbound calls as it has attempts
left. -/
theorem geocodeAttempts_invokes_le (net : ℕ → GeoOutcome) (std : String → String) (d : ℚ) :
    ∀ (r a i : ℕ), countInvokes (geocodeAttempts net std d r a i).2.2 ≤ r
  | 0, a, i => by simp [geocodeAttempts, countInvokes]
  | r + 1, a, i => by
    unfold geocodeAttempts
    cases hn : net i with
    | found c => by_cases hc : c = "" <;> simp [hc, countInvokes] <;> try omega
    | noCountry => simp [countInvokes]; try omega
    | transient =>
      by_cases h1 : 1 ≤ r
      · have ih := geocodeAttempts_invokes_le net std d r (a + 1) (i + 1)
        simp only [h1, if_true, countInvokes, List.countP_cons] at ih ⊢
        simp
        omega
      · simp [h1, countInvokes]
    | exc => simp [countInvokes]

/-- A cache hit (positive or negative) returns the cached value unchanged,
without touching the network. -/
theorem gcwg_hit (p m : ℕ) (d : ℚ) (net : ℕ → GeoOutcome) (std : String → String)
    (cache : Cache) (idx : ℕ) (la lo : ℚ) (v : Option String)
    (h : cLookup (cacheKey p la lo) cache = some v) :
    gcwg p m d net std cache idx la lo = (v, cache, idx, []) := by
  simp only [gcwg, h]

/-- After any `get_country_with_geocoding` call, the rounded key of that call
is present in the cache. -/
theorem gcwg_lookup_after (p m : ℕ) (d : ℚ) (net : ℕ → GeoOutcome) (std : String → String)
    (cache : Cache) (idx : ℕ) (la lo : ℚ) :
    cLookup (cacheKey p la lo) (gcwg p m d net std cache idx la lo).2.1 ≠ none := by
  cases hl : cLookup (cacheKey p la lo) cache with
  | some v => simp [gcwg, hl]
  | none =>
    rcases hr : geocodeAttempts net std d m 0 idx with ⟨r1, i2, evs⟩
    cases r1 <;> simp [gcwg, hl, hr, cLookup]

/-- Keys present in the cache stay present across any
`get_country_with_geocoding` call. -/
theorem gcwg_lookup_mono (p m : ℕ) (d : ℚ) (net : ℕ → GeoOutcome) (std : String → String)
    (cache : Cache) (idx : ℕ) (la lo : ℚ) (k : ℤ × ℤ) (h : cLookup k cache ≠ none) :
    cLookup k (gcwg p m d net std cache idx la lo).2.1 ≠ none := by
  cases hl : cLookup (cacheKey p la lo) cache with
  | some v => simpa [gcwg, hl] using h
  | none =>
    rcases hr : geocodeAttempts net std d m 0 idx with ⟨r1, i2, evs⟩
    cases r1 <;> simp only [gcwg, hl, hr, cLookup] <;> split <;> simp_all

/-- One `get_country_with_geocoding` call makes at most `maxRetries` outbound
calls. -/
theorem gcwg_invokes_le (p m : ℕ) (d : ℚ) (net : ℕ → GeoOutcome) (std : String → String)
    (cache : Cache) (idx : ℕ) (la lo : ℚ) :
    countInvokes (gcwg p m d net std cache idx la lo).2.2.2 ≤ m := by
  cases hl : cLookup (cacheKey p la lo) cache with
  | some v => simp [gcwg, hl, countInvokes]
  | none =>
    have h := geocodeAttempts_invokes_le net std d m 0 idx
    rcases hr : geocodeAttempts net std d m 0 idx with ⟨r1, i2, evs⟩
    rw [hr] at h
    cases r1 <;> simp_all [gcwg]

/-- On a cache miss with at least one attempt allowed,
`get_country_with_geocoding` makes at least one outbound call. -/
theorem gcwg_invokes_pos (p m : ℕ) (d : ℚ) (net : ℕ → GeoOutcome) (std : String → String)
    (cache : Cache) (idx : ℕ) (la lo : ℚ) (hm : 1 ≤ m)
    (hmiss : cLookup (cacheKey p la lo) cache = none) :
    1 ≤ countInvokes (gcwg p m d net std cache idx la lo).2.2.2 := by
  simp only [gcwg, hmiss]
  have hp := geocodeAttempts_invokes_pos net std d m 0 idx hm
  rcases hr : geocodeAttempts net std d m 0 idx with ⟨r1, i2, evs⟩
  rw [hr] at hp
  cases r1 <;> simp_all

/-- A call whose key is already cached leaves the cache unchanged and
produces no events. -/
theorem gcwg_hit_state (p m : ℕ) (d : ℚ) (net : ℕ → GeoOutcome) (std : String → String)
    (cache : Cache) (idx : ℕ) (la lo : ℚ) (h : cLookup (cacheKey p la lo) cache ≠ none) :
    (gcwg p m d net std cache idx la lo).2.1 = cache ∧
    (gcwg p m d net std cache idx la lo).2.2.2 = [] := by
  cases hl : cLookup (cacheKey p la lo) cache with
  | none => exact absurd hl h
  | some v => simp [gcwg, hl]

/-- When `get_country_with_geocoding` yields no country, it has recorded the
negative result under the call's rounded key. -/
theorem gcwg_neg_cache (p m : ℕ) (d : ℚ) (net : ℕ → GeoOutcome) (std : String → String)
    (cache : Cache) (idx : ℕ) (la lo : ℚ)
    (hnone : (gcwg p m d net std cache idx la lo).1 = none) :
    cLookup (cacheKey p la lo) (gcwg p m d net std cache idx la lo).2.1 = some none := by
  cases hl : cLookup (cacheKey p la lo) cache with
  | some v =>
    rw [gcwg_hit p m d net std cache idx la lo v hl] at hnone ⊢
    simp only [] at hnone ⊢
    rw [hnone] at hl
    exact hl
  | none =>
    rcases hr : geocodeAttempts net std d m 0 idx with ⟨r1, i2, evs⟩
    cases r1 with
    | some c => simp [gcwg, hl, hr] at hnone
    | none => simp [gcwg, hl, hr, cLookup]

/-- Across a whole run of lookups sharing one cache: once a key is cached no
later call for it reaches the network, and in total a key is responsible for
at most `maxRetries` outbound calls. -/
theorem runLookups_keyInvokes (p m : ℕ) (d : ℚ) (net : ℕ → GeoOutcome) (std : String → String)
    (k : ℤ × ℤ) :
    ∀ (cs : List (ℚ × ℚ)) (cache : Cache) (idx : ℕ),
    (cLookup k cache ≠ none →
      keyInvokes p k cs (runLookups p m d net std cache idx cs).2.2 = 0) ∧
    keyInvokes p k cs (runLookups p m d net std cache idx cs).2.2 ≤ m
  | [], cache, idx => by simp [runLookups, keyInvokes]
  | (la, lo) :: rest, cache, idx => by
    rcases hg : gcwg p m d net std cache idx la lo with ⟨res, cache', idx', evs⟩
    have hafter : cLookup (cacheKey p la lo) cache' ≠ none := by
      have h := gcwg_lookup_after p m d net std cache idx la lo
      rw [hg] at h; exact h
    have hmono : cLookup k cache ≠ none → cLookup k cache' ≠ none := by
      intro h
      have h2 := gcwg_lookup_mono p m d net std cache idx la lo k h
      rw [hg] at h2; exact h2
    have hle : countInvokes evs ≤ m := by
      have h := gcwg_invokes_le p m d net std cache idx la lo
      rw [hg] at h; exact h
    have ihA := (runLookups_keyInvokes p m d net std k rest cache' idx').1
    have ihB := (runLookups_keyInvokes p m d net std k rest cache' idx').2
    simp only [runLookups, hg, keyInvokes]
    by_cases hk : cacheKey p la lo = k
    · rw [if_pos hk]
      constructor
      · intro hpres
        have hhit : cLookup (cacheKey p la lo) cache ≠ none := by rw [hk]; exact hpres
        have hh := gcwg_hit_state p m d net std cache idx la lo hhit
        rw [hg] at hh
        simp only [] at hh
        have h0 : countInvokes evs = 0 := by rw [hh.2]; rfl
        have hrest : keyInvokes p k rest (runLookups p m d net std cache' idx' rest).2.2 = 0 :=
          ihA (hh.1.symm ▸ hpres)
        omega
      · by_cases hpres : cLookup k cache = none
        · have hrest : keyInvokes p k rest (runLookups p m d net std cache' idx' rest).2.2 = 0 :=
            ihA (by rw [← hk]; exact hafter)
          omega
        · have hhit : cLookup (cacheKey p la lo) cache ≠ none := by rw [hk]; exact hpres
          have hh := gcwg_hit_state p m d net std cache idx la lo hhit
          rw [hg] at hh
          simp only [] at hh
          have h0 : countInvokes evs = 0 := by rw [hh.2]; rfl
          have hrest : keyInvokes p k rest (runLookups p m d net std cache' idx' rest).2.2 = 0 :=
            ihA (hh.1.symm ▸ hpres)
          omega
    · rw [if_neg hk]
      constructor
      · intro hpres
        have hrest := ihA (hmono hpres)
        omega
      · have := ihB
        omega

/-- First-match semantics of an `if ...: return label` chain: if rule `i`
matches and no earlier rule does, the chain returns rule `i`'s label. -/
theorem firstMatch_of_first_rule (lat lon : ℚ) :
    ∀ (l : List CountryDetector.Rule) (i : ℕ) (hi : i < l.length),
    (∀ k (hk : k < i), ((l.get ⟨k, hk.trans hi⟩).test lat lon) = false) →
    ((l.get ⟨i, hi⟩).test lat lon) = true →
    CountryDetector.firstMatch lat lon l = some (l.get ⟨i, hi⟩).label
  | [], i, hi, _, _ => absurd hi (by simp)
  | r :: rs, 0, hi, _, hm => by
    simp only [List.get] at hm ⊢
    simp [CountryDetector.firstMatch, hm]
  | r :: rs, i + 1, hi, hf, hm => by
    have h0 : r.test lat lon = false := hf 0 (Nat.succ_pos i)
    simp only [List.get] at hm ⊢
    simp only [CountryDetector.firstMatch, h0, Bool.false_eq_true, if_false]
    exact firstMatch_of_first_rule lat lon rs i (Nat.succ_lt_succ_iff.mp hi)
      (fun k hk => hf (k + 1) (Nat.succ_lt_succ hk)) hm

/-- The per-row update of `process_earthquake_database` is idempotent. -/
theorem countryDetector_enrichRow_idem (r : Row) :
    CountryDetector.enrichRow (CountryDetector.enrichRow r) = CountryDetector.enrichRow r := by
  unfold CountryDetector.enrichRow
  by_cases h : CountryDetector.needsCountry r.country
  · simp only [h, if_true]
    by_cases h2 : CountryDetector.needsCountry (some (CountryDetector.detectOffline r.lat r.lon)) <;>
      simp [h2]
  · simp [h]

/-- The per-row update of `analyze_and_update_database` is idempotent. -/
theorem comprehensive_enrichRow_idem (r : Row) :
    Comprehensive.enrichRow (Comprehensive.enrichRow r) = Comprehensive.enrichRow r := by
  unfold Comprehensive.enrichRow
  by_cases h : Comprehensive.needsCountry r.country
  · simp only [h, if_true]
    by_cases h2 : Comprehensive.needsCountry (some (Comprehensive.detectOffline r.lat r.lon)) <;>
      simp [h2]
  · simp [h]

/-! ## The claims -/

/-- Claim C1, amended.  Per rounded key the backend is invoked at most
`max_retries` times across a whole run (3 for `CountryDetector`, 2 for
`ComprehensiveCountryDetector`), all within the first call for that key: a
call whose rounded key is already cached — also when the cached value is the
negative marker `None` — returns the cached value with no network events and
no state change.  (The claim's "at most once" fails because transient-error
retries re-invoke the backend for the same key inside the first call; see the
counterexample.) -/
theorem claim_C1_per_key_invocations :
    (∀ (net : ℕ → GeoOutcome) (std : String → String) (idx : ℕ)
      (cs : List (ℚ × ℚ)) (k : ℤ × ℤ),
      keyInvokes 3 k cs (runLookups 3 3 (1/5) net std [] idx cs).2.2 ≤ 3) ∧
    (∀ (net : ℕ → GeoOutcome) (idx : ℕ) (cs : List (ℚ × ℚ)) (k : ℤ × ℤ),
      keyInvokes 2 k cs (runLookups 2 2 (3/10) net (fun s => s) [] idx cs).2.2 ≤ 2) ∧
    (∀ (net : ℕ → GeoOutcome) (std : String → String) (cache : Cache) (idx : ℕ)
      (la lo : ℚ) (v : Option String), cLookup (cacheKey 3 la lo) cache = some v →
      CountryDetector.get_country_with_geocoding net std cache idx la lo = (v, cache, idx, [])) ∧
    (∀ (net : ℕ → GeoOutcome) (cache : Cache) (idx : ℕ)
      (la lo : ℚ) (v : Option String), cLookup (cacheKey 2 la lo) cache = some v →
      Comprehensive.get_country_with_geocoding net cache idx la lo = (v, cache, idx, [])) := by
  refine ⟨?_, ?_, ?_, ?_⟩
  · intro net std idx cs k
    exact (runLookups_keyInvokes 3 3 (1/5) net std k cs [] idx).2
  · intro net idx cs k
    exact (runLookups_keyInvokes 2 2 (3/10) net (fun s => s) k cs [] idx).2
  · intro net std cache idx la lo v h
    exact gcwg_hit 3 3 (1/5) net std cache idx la lo v h
  · intro net cache idx la lo v h
    exact gcwg_hit 2 2 (3/10) net (fun s => s) cache idx la lo v h

/-- Witness for C1: a positive and a negative cached entry are both returned
without any network activity. -/
theorem claim_C1_per_key_invocations_witness :
    CountryDetector.get_country_with_geocoding netAlwaysExc (fun s => s)
      [(cacheKey 3 1 2, none)] 0 1 2 = (none, [(cacheKey 3 1 2, none)], 0, []) ∧
    Comprehensive.get_country_with_geocoding netAlwaysExc
      [(cacheKey 2 1 2, some "Chile")] 0 1 2 =
      (some "Chile", [(cacheKey 2 1 2, some "Chile")], 0, []) :=
  ⟨claim_C1_per_key_invocations.2.2.1 netAlwaysExc (fun s => s)
      [(cacheKey 3 1 2, none)] 0 1 2 none (by simp [cLookup]),
   claim_C1_per_key_invocations.2.2.2 netAlwaysExc
      [(cacheKey 2 1 2, some "Chile")] 0 1 2 (some "Chile") (by simp [cLookup])⟩

/-- Counterexample to C1 as stated: with a backend that fails transiently
twice and then succeeds, a single `get_country_with_geocoding` call invokes
the backend three times for one rounded key — more than "at most once". -/
theorem claim_C1_counterexample :
    keyInvokes 3 (cacheKey 3 1 2) [(1, 2)]
      (runLookups 3 3 (1/5) netFailTwice (fun s => s) [] 0 [(1, 2)]).2.2 = 3 := by decide

/-- Claim C2: first-declared rule wins on overlap.  If rule `i` of the
declared sequence matches a point, no rule before `i` matches it, and a later
rule `j` also matches it, `get_country_from_geography` returns rule `i`'s
label — in particular a point in both the United States box (rule 0) and the
Canada box (rule 1) is labeled by rule 0. -/
theorem claim_C2_first_declared_rule_wins (lat lon : ℚ) (i j : ℕ) (hij : i < j)
    (hi : i < CountryDetector.countryRules.length)
    (hj : j < CountryDetector.countryRules.length)
    (hfirst : ∀ k (hk : k < i),
      ((CountryDetector.countryRules.get ⟨k, hk.trans hi⟩).test lat lon) = false)
    (hmi : ((CountryDetector.countryRules.get ⟨i, hi⟩).test lat lon) = true)
    (hmj : ((CountryDetector.countryRules.get ⟨j, hj⟩).test lat lon) = true) :
    CountryDetector.get_country_from_geography lat lon =
      (CountryDetector.countryRules.get ⟨i, hi⟩).label := by
  unfold CountryDetector.get_country_from_geography
  rw [firstMatch_of_first_rule lat lon CountryDetector.countryRules i hi hfirst hmi]

/-- Witness for C2: (45, -70) lies in both the United States box (rule 0) and
the Canada box (rule 1) and is labeled 'United States'. -/
theorem claim_C2_first_declared_rule_wins_witness :
    CountryDetector.get_country_from_geography 45 (-70) = "United States" := by
  have h := claim_C2_first_declared_rule_wins 45 (-70) 0 1 (by omega) (by decide) (by decide)
    (fun k hk => absurd hk (Nat.not_lt_zero k)) (by decide) (by decide)
  exact h

/-- Claim C3, amended.  NaN/missing and non-numeric coordinates map to
'Unknown' in both detectors, in every configuration.  (The claim's
out-of-range clause fails: the code never range-checks numeric coordinates,
so (200, 10) flows through the geographic rules — see the counterexample.) -/
theorem claim_C3_invalid_input_unknown : ∀ (net : ℕ → GeoOutcome) (std : String → String)
    (cache : Cache) (idx : ℕ) (g : Bool) (v w : PyVal),
    (CountryDetector.get_country_from_coordinates net std cache idx g .na w).1 = "Unknown" ∧
    (CountryDetector.get_country_from_coordinates net std cache idx g v .na).1 = "Unknown" ∧
    (CountryDetector.get_country_from_coordinates net std cache idx g .bad w).1 = "Unknown" ∧
    (CountryDetector.get_country_from_coordinates net std cache idx g v .bad).1 = "Unknown" ∧
    (Comprehensive.get_country_from_coordinates net std cache idx g .na w).1 = "Unknown" ∧
    (Comprehensive.get_country_from_coordinates net std cache idx g v .na).1 = "Unknown" ∧
    (Comprehensive.get_country_from_coordinates net std cache idx g .bad w).1 = "Unknown" ∧
    (Comprehensive.get_country_from_coordinates net std cache idx g v .bad).1 = "Unknown" := by
  intro net std cache idx g v w
  cases v <;> cases w <;>
    simp [CountryDetector.get_country_from_coordinates,
      Comprehensive.get_country_from_coordinates, toNum]

/-- Counterexample to C3 as stated: the out-of-range input (lat=200, lon=10)
does not yield 'Unknown' — `CountryDetector` returns 'North Atlantic Ocean'
and `ComprehensiveCountryDetector` returns 'Arctic Ocean'. -/
theorem claim_C3_counterexample :
    (CountryDetector.get_country_from_coordinates netAlwaysExc (fun s => s) [] 0 false
      (.num 200) (.num 10)).1 = "North Atlantic Ocean" ∧
    (Comprehensive.get_country_from_coordinates netAlwaysExc (fun s => s) [] 0 false
      (.num 200) (.num 10)).1 = "Arctic Ocean" := by decide

/-- Claim C4, amended.  In `ComprehensiveCountryDetector.get_ocean_name` the
polar checks do come first: any point with lat ≥ 75 is 'Arctic Ocean' and any
point with lat ≤ -50 is 'Southern Ocean', regardless of longitude.  In
`CountryDetector.get_specific_ocean_region`, however, the named-sea and
longitude-band basin checks precede the polar checks, so the ocean point
(80, -30) is labeled 'North Atlantic Ocean', not 'Arctic Ocean'. -/
theorem claim_C4_polar_vs_basin_order :
    (∀ la lo : ℚ, 75 ≤ la → Comprehensive.get_ocean_name la lo = "Arctic Ocean") ∧
    (∀ la lo : ℚ, la ≤ -50 → Comprehensive.get_ocean_name la lo = "Southern Ocean") ∧
    CountryDetector.is_in_ocean 80 (-30) = true ∧
    CountryDetector.get_specific_ocean_region 80 (-30) = "North Atlantic Ocean" := by
  refine ⟨?_, ?_, by decide, by decide⟩
  · intro la lo h
    unfold Comprehensive.get_ocean_name
    rw [if_neg (by simp only [not_le]; linarith), if_pos h]
  · intro la lo h
    unfold Comprehensive.get_ocean_name
    rw [if_pos h]

/-- Witness for C4: the polar rules of `get_ocean_name` at concrete points. -/
theorem claim_C4_polar_vs_basin_order_witness :
    Comprehensive.get_ocean_name 80 (-30) = "Arctic Ocean" ∧
    Comprehensive.get_ocean_name (-60) 10 = "Southern Ocean" :=
  ⟨claim_C4_polar_vs_basin_order.1 80 (-30) (by norm_num),
   claim_C4_polar_vs_basin_order.2.1 (-60) 10 (by norm_num)⟩

/-- Counterexample to C4 as stated: (80, -30) is classified as ocean by
`CountryDetector`, has lat ≥ 75, yet is not labeled 'Arctic Ocean' — the
Atlantic longitude band is checked first. -/
theorem claim_C4_counterexample :
    CountryDetector.is_in_ocean 80 (-30) = true ∧
    CountryDetector.get_country_from_geography 80 (-30) = "North Atlantic Ocean" ∧
    CountryDetector.get_specific_ocean_region 80 (-30) ≠ "Arctic Ocean" := by decide

/-- Claim C5: boundary inclusivity at the stated US edge — (25, -125)
classifies as 'United States' while (24.999, -125) does not. -/
theorem claim_C5_boundary_inclusivity :
    CountryDetector.get_country_from_geography 25 (-125) = "United States" ∧
    CountryDetector.get_country_from_geography (24999 / 1000) (-125) ≠ "United States" := by
  constructor
  · decide
  · have h : CountryDetector.get_country_from_geography (24999 / 1000) (-125) = "Unknown Region" := by
      norm_num [CountryDetector.get_country_from_geography, CountryDetector.firstMatch,
        CountryDetector.countryRules, CountryDetector.is_in_ocean, CountryDetector.landRegions,
        CountryDetector.is_major_sea_or_lake, CountryDetector.get_regional_fallback, List.find?]
    rw [h]; decide

/-- Claim C6: with `max_retries=3`, a cache miss, and a backend that raises
transient errors on its first two calls and succeeds on the third with a
truthy country, `get_country_with_geocoding` returns that country, performs
exactly 3 = `max_retries` outbound attempts, and sleeps between the failed
attempts with the doubling backoff delays 2^0 = 1s and 2^1 = 2s. -/
theorem claim_C6_retry_backoff (net : ℕ → GeoOutcome) (std : String → String)
    (cache : Cache) (idx : ℕ) (la lo : ℚ) (c : String)
    (h0 : cLookup (cacheKey 3 la lo) cache = none)
    (h1 : net idx = .transient) (h2 : net (idx + 1) = .transient)
    (h3 : net (idx + 2) = .found c) (hc : c ≠ "") :
    (CountryDetector.get_country_with_geocoding net std cache idx la lo).1 = some (std c) ∧
    countInvokes (CountryDetector.get_country_with_geocoding net std cache idx la lo).2.2.2 = 3 ∧
    backoffs (CountryDetector.get_country_with_geocoding net std cache idx la lo).2.2.2 = [1, 2] := by
  unfold CountryDetector.get_country_with_geocoding
  simp only [gcwg, h0]
  have ha : geocodeAttempts net std (1/5) 3 0 idx =
      (some (std c), idx + 3, [.rate (1/5), .invoke idx, .backoff 1,
        .rate (1/5), .invoke (idx + 1), .backoff 2, .rate (1/5), .invoke (idx + 2)]) := by
    unfold geocodeAttempts
    rw [h1]
    simp only [show (1:ℕ) ≤ 2 by omega, if_true]
    unfold geocodeAttempts
    rw [h2]
    simp only [show (1:ℕ) ≤ 1 by omega, if_true]
    unfold geocodeAttempts
    rw [h3]
    simp [hc]
  rw [ha]
  simp [countInvokes, backoffs]

/-- Witness for C6: the retry scenario run against the concrete fail-twice
backend. -/
theorem claim_C6_retry_backoff_witness :
    (CountryDetector.get_country_with_geocoding netFailTwice (fun s => s) [] 0 1 2).1 =
      some "Chile" ∧
    countInvokes (CountryDetector.get_country_with_geocoding netFailTwice
      (fun s => s) [] 0 1 2).2.2.2 = 3 ∧
    backoffs (CountryDetector.get_country_with_geocoding netFailTwice
      (fun s => s) [] 0 1 2).2.2.2 = [1, 2] :=
  claim_C6_retry_backoff netFailTwice (fun s => s) [] 0 1 2 "Chile"
    rfl (by decide) (by decide) (by decide) (by decide)

/-- Claim C7: when the high-confidence rules return a label other than
'Uncertain', `get_country_from_coordinates` returns exactly that label with
no network events and no state change, even with geocoding enabled. -/
theorem claim_C7_high_confidence_short_circuit (net : ℕ → GeoOutcome) (std : String → String)
    (cache : Cache) (idx : ℕ) (la lo : ℚ)
    (h : Comprehensive.get_high_confidence_country la lo ≠ "Uncertain") :
    Comprehensive.get_country_from_coordinates net std cache idx true (.num la) (.num lo) =
      (Comprehensive.get_high_confidence_country la lo, cache, idx, []) := by
  unfold Comprehensive.get_country_from_coordinates
  simp [toNum, h]

/-- Witness for C7: (30, -100) is high-confidence 'United States' and
resolves without any network call even against an always-failing backend. -/
theorem claim_C7_high_confidence_short_circuit_witness :
    Comprehensive.get_country_from_coordinates netAlwaysExc (fun s => s) [] 0 true
      (.num 30) (.num (-100)) =
      (Comprehensive.get_high_confidence_country 30 (-100), [], 0, []) :=
  claim_C7_high_confidence_short_circuit netAlwaysExc (fun s => s) [] 0 30 (-100) (by decide)

/-- Claim C8: for every backend behaviour (timeouts, service errors,
arbitrary exceptions, responses without a country), the resolver with
geocoding enabled returns a label string — the geocoded country when the
geocoding layer yields one, else the geographic-rules fallback — and
whenever the geocoding layer yields no result, it has cached the negative
entry for the rounded key.  No exception reaches the caller: the embedded
functions are total over all backend behaviours. -/
theorem claim_C8_network_failure_contained (net : ℕ → GeoOutcome) (std : String → String)
    (cache : Cache) (idx : ℕ) (la lo : ℚ) :
    (CountryDetector.get_country_from_coordinates net std cache idx true (.num la) (.num lo)).1 =
      ((CountryDetector.get_country_with_geocoding net std cache idx la lo).1).getD
        (CountryDetector.get_country_from_geography la lo) ∧
    ((CountryDetector.get_country_with_geocoding net std cache idx la lo).1 = none →
      cLookup (cacheKey 3 la lo)
        (CountryDetector.get_country_with_geocoding net std cache idx la lo).2.1 = some none) := by
  constructor
  · unfold CountryDetector.get_country_from_coordinates
    simp only [toNum]
    rcases hg : CountryDetector.get_country_with_geocoding net std cache idx la lo with
      ⟨res, cache', idx', evs⟩
    cases res <;> simp
  · intro hnone
    exact gcwg_neg_cache 3 3 (1/5) net std cache idx la lo hnone

/-- Witness for C8: an always-raising backend still yields a label (the
geographic fallback) and a cached negative entry. -/
theorem claim_C8_network_failure_contained_witness :
    (CountryDetector.get_country_from_coordinates netAlwaysExc (fun s => s) [] 0 true
      (.num 1) (.num 2)).1 =
      ((CountryDetector.get_country_with_geocoding netAlwaysExc (fun s => s) [] 0 1 2).1).getD
        (CountryDetector.get_country_from_geography 1 2) ∧
    cLookup (cacheKey 3 1 2)
      (CountryDetector.get_country_with_geocoding netAlwaysExc (fun s => s) [] 0 1 2).2.1 =
      some none :=
  ⟨(claim_C8_network_failure_contained netAlwaysExc (fun s => s) [] 0 1 2).1,
   (claim_C8_network_failure_contained netAlwaysExc (fun s => s) [] 0 1 2).2 (by decide)⟩

/-- Claim C9: with geocoding disabled, both batch-enrichment passes are
idempotent — running them twice equals running them once — and a row whose
`Country` is already an identified label (not selected by the missing/unknown
mask) is left untouched, so no label regresses. -/
theorem claim_C9_batch_idempotent :
    (∀ df : List Row,
      CountryDetector.enrich (CountryDetector.enrich df) = CountryDetector.enrich df) ∧
    (∀ df : List Row,
      Comprehensive.enrich (Comprehensive.enrich df) = Comprehensive.enrich df) ∧
    (∀ r : Row, CountryDetector.needsCountry r.country = false →
      CountryDetector.enrichRow r = r) ∧
    (∀ r : Row, Comprehensive.needsCountry r.country = false →
      Comprehensive.enrichRow r = r) := by
  refine ⟨?_, ?_, ?_, ?_⟩
  · intro df
    unfold CountryDetector.enrich
    rw [List.map_map]
    exact List.map_congr_left (fun r _ => countryDetector_enrichRow_idem r)
  · intro df
    unfold Comprehensive.enrich
    rw [List.map_map]
    exact List.map_congr_left (fun r _ => comprehensive_enrichRow_idem r)
  · intro r h
    unfold CountryDetector.enrichRow
    simp [h]
  · intro r h
    unfold Comprehensive.enrichRow
    simp [h]

/-- Witness for C9: an already-identified row is untouched by both
enrichment passes. -/
theorem claim_C9_batch_idempotent_witness :
    CountryDetector.enrichRow ⟨.num 1, .num 2, some "Japan"⟩ = ⟨.num 1, .num 2, some "Japan"⟩ ∧
    Comprehensive.enrichRow ⟨.num 1, .num 2, some "Japan"⟩ = ⟨.num 1, .num 2, some "Japan"⟩ :=
  ⟨claim_C9_batch_idempotent.2.2.1 ⟨.num 1, .num 2, some "Japan"⟩ (by decide),
   claim_C9_batch_idempotent.2.2.2 ⟨.num 1, .num 2, some "Japan"⟩ (by decide)⟩

/-- Claim C10: the Central Pacific test of `is_definitely_ocean` is
unsatisfiable (no longitude is both ≥ 140 and ≤ -120), so the function is
equivalent to the Atlantic/Indian/polar disjunction; the open-Pacific point
(0, 160) is 'Uncertain' for the high-confidence rules; and with geocoding
enabled and an empty cache, resolving (0, 160) makes at least one outbound
network call whatever the backend does. -/
theorem claim_C10_dead_pacific_branch :
    (∀ la lo : ℚ, Comprehensive.is_definitely_ocean la lo =
      decide ((-40 ≤ la ∧ la ≤ 40 ∧ -50 ≤ lo ∧ lo ≤ -10) ∨
        (-40 ≤ la ∧ la ≤ 20 ∧ 60 ≤ lo ∧ lo ≤ 100) ∨ la ≤ -50 ∨ 75 ≤ la)) ∧
    Comprehensive.get_high_confidence_country 0 160 = "Uncertain" ∧
    (∀ (net : ℕ → GeoOutcome) (std : String → String), 1 ≤ countInvokes
      (Comprehensive.get_country_from_coordinates net std [] 0 true
        (.num 0) (.num 160)).2.2.2) := by
  refine ⟨?_, by decide, ?_⟩
  · intro la lo
    unfold Comprehensive.is_definitely_ocean
    rw [if_neg (by rintro ⟨-, -, h1, h2⟩; linarith)]
    split_ifs <;> simp_all
  · intro net std
    unfold Comprehensive.get_country_from_coordinates
    simp only [toNum]
    rw [if_pos (by decide : Comprehensive.get_high_confidence_country 0 160 = "Uncertain")]
    have hp := gcwg_invokes_pos 2 2 (3/10) net (fun s => s) [] 0 0 160 (by omega) rfl
    unfold Comprehensive.get_country_with_geocoding
    rcases hr : gcwg 2 2 (3/10) net (fun s => s) [] 0 0 160 with ⟨r1, c2, i2, evs⟩
    rw [hr] at hp
    cases r1 <;> simp_all

end EqDetect
